import Mathlib

/-!
Verification of the hw-management thermal control daemon
(`usr/usr/bin/hw-management-thermal-control.py`, Python 2).

The daemon's state lives in the hw-management directory tree (modelled here
as an association list from relative paths to file contents) and in a few
in-memory controller fields.  Each definition below is a direct translation
of one routine, or one routine fragment, of the source file; line numbers in
the comments refer to the source.
-/

namespace HwMgmt

/-- The hw-management directory tree: relative path to file contents.
`none` from lookup models a missing file. -/
def Tree := List (String × String)

/-- Look a path up in the tree. -/
def treeLookup : Tree → String → Option String
  | [], _ => none
  | (q, w) :: rest, p => if q = p then some w else treeLookup rest p

/-- `_read_file` (source lines 610-625): return file contents, or the given
default when the file does not exist.  The trailing-newline strip is
irrelevant here because tree contents are stored without newlines. -/
def treeRead (t : Tree) (p dflt : String) : String :=
  (treeLookup t p).getD dflt

/-- `_check_file` (source lines 678-685): `os.path.isfile`. -/
def treeExists (t : Tree) (p : String) : Bool :=
  (treeLookup t p).isSome

/-- `_write_file` (source lines 627-640): overwrite or create; `IOError` is
swallowed so the write always takes effect in this model. -/
def treeWrite : Tree → String → String → Tree
  | [], p, v => [(p, v)]
  | (q, w) :: rest, p, v =>
      if q = p then (q, v) :: rest else (q, w) :: treeWrite rest p v

/-- Parse a decimal digit run, most significant first. -/
def digitsAux : List Char → Nat → Option Nat
  | [], acc => some acc
  | c :: cs, acc =>
      if c.isDigit then digitsAux cs (acc * 10 + (c.toNat - 48)) else none

/-- Parse a non-empty decimal digit run. -/
def pyDigits? : List Char → Option Nat
  | [] => none
  | cs => digitsAux cs 0

/-- Python `int(s)` on the optionally signed decimal literals that occur in
the hw-management tree; `none` models the `ValueError` raised on anything
else (in particular on the empty string). -/
def pyInt? (s : String) : Option Int :=
  match s.data with
  | '-' :: cs => (pyDigits? cs).map (fun n => -(n : Int))
  | cs => (pyDigits? cs).map (fun n => (n : Int))

/-- `_thermal_read_file_int` (source lines 652-667): read
`thermal/<filename>` with string default `''`, convert with `int`, and fall
back to the integer default on `ValueError` (hence also when the file is
missing).  Paths are kept fully qualified here, so the caller passes the
`thermal/` prefix explicitly. -/
def treeReadInt (t : Tree) (p : String) (dflt : Int) : Int :=
  (pyInt? (treeRead t p "")).getD dflt

/-- `HWConst` (source lines 90-111), the constants the claims mention. -/
def FAN_MAX_STATE : Int := 10
def COOLING_SET_MAX_STATE : Int := 20
def COOLING_SET_DEF_STATE : Int := 16
def PWM_NOACT : Int := 0
def PWM_MAX : Int := 1

/-- `PSU_FAN_SPEED` (source lines 114-115): the 11-entry PSU fan speed
vector. -/
def PSU_FAN_SPEED : List String :=
  ["0x3c", "0x3c", "0x3c", "0x3c", "0x3c",
   "0x3c", "0x3c", "0x46", "0x50", "0x5a", "0x64"]

/-- Python list subscription `l[i]`: non-negative indices from the front,
negative indices wrap once from the back; `none` models `IndexError`. -/
def pyListGet (l : List String) (i : Int) : Option String :=
  if 0 ≤ i then l.get? i.toNat
  else if 0 ≤ i + l.length then l.get? (i + l.length).toNat
  else none

/-- `_update_psu_fan_speed` (source lines 935-949): the subscript used on
`PSU_FAN_SPEED` is `int(entry)` where `entry` is the raw contents of
`thermal/cooling_cur_state` (string read, default `'0'`); `none` models the
`ValueError` of `int` on an unparseable entry. -/
def psuFanSpeedIndex (t : Tree) : Option Int :=
  pyInt? (treeRead t "thermal/cooling_cur_state" "0")

/-- The speed byte `PSU_FAN_SPEED[int(entry)]` pushed over I2C for each
powered PSU (source line 948); `none` models a raised exception. -/
def psuFanSpeedByte (t : Tree) : Option String :=
  (psuFanSpeedIndex t).bind (pyListGet PSU_FAN_SPEED)

/-- C4 counterexample: with `thermal/cooling_cur_state = 20` the subscript
used on the 11-entry vector is the unclamped 20, not `min 20 10`, and the
access is out of bounds (Python raises `IndexError`), refuting the claim
that the index is clamped to 0..10 and in bounds for every cooling state in
0..20. -/
theorem c4_counterexample :
    psuFanSpeedIndex [("thermal/cooling_cur_state", "20")] = some 20 ∧
    pyListGet PSU_FAN_SPEED 20 = none ∧
    (20 : Int) ≠ min 20 10 := by
  refine ⟨rfl, rfl, by decide⟩

/-- C4 (amended): `_update_psu_fan_speed` subscripts `PSU_FAN_SPEED` with
the unclamped `int(cooling_cur_state)`; for cooling states 0..10 the access
is in bounds, while for 11..20 it raises `IndexError`. -/
theorem c4_amended (c : Int) (h0 : 0 ≤ c) (h20 : c ≤ 20) :
    (c ≤ 10 → (pyListGet PSU_FAN_SPEED c).isSome = true) ∧
    (11 ≤ c → pyListGet PSU_FAN_SPEED c = none) := by
  constructor
  · intro h10
    interval_cases c <;> decide
  · intro h11
    interval_cases c <;> decide

/-- Witness for `c4_amended` at cooling states 5 and 20. -/
theorem c4_amended_witness :
    (pyListGet PSU_FAN_SPEED 5).isSome = true ∧
    pyListGet PSU_FAN_SPEED 20 = none :=
  ⟨(c4_amended 5 (by decide) (by decide)).1 (by decide),
   (c4_amended 20 (by decide) (by decide)).2 (by decide)⟩

/-! ### Thermal tables and the dynamic minimum (source lines 179-314, 999-1040) -/

/-- Airflow direction computed from the two ambient sensors
(source lines 1013-1021). -/
inductive FlowDir where
  | p2c | c2p | unk
deriving DecidableEq

/-- Cable-sensor trust state (source lines 1004-1007). -/
inductive Trust where
  | trust | untrust
deriving DecidableEq

/-- One thermal class table: for each of the six direction-trust keys the
list of ambient bands, an ambient band being the string key of the source
dict (parsed on use, exactly as the source splits on a colon) paired with
the minimum-fan value.  List order is the dict's insertion order; band
membership does not depend on it for any claim proved below.  The source
dicts of classes 1, 2, 3 and 5 also carry top-level `trust`/`untrust` keys
that no code path reads (the fallbacks actually used live in
`THERMAL_TABLE_LIST`), so they are not modelled. -/
structure ClassTable where
  p2c_trust : List (String × Nat)
  p2c_untrust : List (String × Nat)
  c2p_trust : List (String × Nat)
  c2p_untrust : List (String × Nat)
  unk_trust : List (String × Nat)
  unk_untrust : List (String × Nat)

/-- `TABLE_CLASS1` (source lines 179-188). -/
def TABLE_CLASS1 : ClassTable where
  p2c_trust := [("-127:40", 13), ("41:120", 15)]
  p2c_untrust := [("-127:25", 13), ("26:30", 14), ("31:35", 15), ("36:120", 16)]
  c2p_trust := [("-127:20", 13), ("21:25", 14), ("26:30", 15), ("31:120", 16)]
  c2p_untrust := [("-127:20", 13), ("21:25", 14), ("26:30", 15), ("31:120", 16)]
  unk_trust := [("-127:20", 13), ("21:25", 14), ("26:30", 15), ("31:120", 16)]
  unk_untrust := [("-127:20", 13), ("21:25", 14), ("26:30", 15), ("31:120", 16)]

/-- `TABLE_CLASS2` (source lines 209-218). -/
def TABLE_CLASS2 : ClassTable where
  p2c_trust := [("-127:120", 12)]
  p2c_untrust := [("-127:15", 12), ("16:25", 13), ("26:31", 14), ("31:35", 15), ("36:120", 16)]
  c2p_trust := [("-127:40", 12), ("41:120", 13)]
  c2p_untrust := [("-127:40", 12), ("41:120", 13)]
  unk_trust := [("-127:40", 12), ("41:120", 13)]
  unk_untrust := [("-127:15", 12), ("16:25", 13), ("26:31", 14), ("31:35", 15), ("36:120", 16)]

/-- `TABLE_CLASS3` (source lines 240-249). -/
def TABLE_CLASS3 : ClassTable where
  p2c_trust := [("-127:120", 13)]
  p2c_untrust := [("-127:35", 13), ("36:14", 14), ("41:120", 15)]
  c2p_trust := [("-127:120", 13)]
  c2p_untrust := [("-127:15", 13), ("16:31", 14), ("31:35", 15), ("36:120", 17)]
  unk_trust := [("-127:120", 13)]
  unk_untrust := [("-127:15", 13), ("16:31", 14), ("31:35", 15), ("36:120", 17)]

/-- `TABLE_CLASS4` (source lines 270-277). -/
def TABLE_CLASS4 : ClassTable where
  p2c_trust := [("-127:120", 20)]
  p2c_untrust := [("-127:10", 20), ("11:15", 13), ("16:20", 14), ("21:31", 15), ("31:120", 16)]
  c2p_trust := [("-127:120", 20)]
  c2p_untrust := [("-127:20", 20), ("21:25", 13), ("26:31", 14), ("31:35", 15), ("36:120", 16)]
  unk_trust := [("-127:120", 20)]
  unk_untrust := [("-127:10", 20), ("11:15", 13), ("16:20", 14), ("11:31", 15), ("31:120", 16)]

/-- `TABLE_CLASS5` (source lines 298-306). -/
def TABLE_CLASS5 : ClassTable where
  p2c_trust := [("-127:120", 16)]
  p2c_untrust := [("-127:120", 16)]
  c2p_trust := [("-127:120", 16)]
  c2p_untrust := []
  unk_trust := [("-127:120", 16)]
  unk_untrust := [("-127:120", 16)]

/-- One entry of `THERMAL_TABLE_LIST` (source lines 308-314): the class
table plus the trust/untrust fallbacks read by `_set_pwm_min_speed`. -/
structure ThermalTableEntry where
  table : ClassTable
  trust_fb : Nat
  untrust_fb : Nat

def THERMAL_TABLE_TC1 : ThermalTableEntry := ⟨TABLE_CLASS1, 16, 16⟩
def THERMAL_TABLE_TC2 : ThermalTableEntry := ⟨TABLE_CLASS2, 13, 16⟩
def THERMAL_TABLE_TC3 : ThermalTableEntry := ⟨TABLE_CLASS3, 13, 17⟩
def THERMAL_TABLE_TC4 : ThermalTableEntry := ⟨TABLE_CLASS4, 12, 16⟩
def THERMAL_TABLE_TC5 : ThermalTableEntry := ⟨TABLE_CLASS5, 12, 16⟩

/-- `_get_fan_dynamic_table` (source lines 707-728): thermal classes 1..5
map to their tables, class 6 aliases class 5, anything else is
unsupported. -/
def get_fan_dynamic_table : Nat → Option ThermalTableEntry
  | 1 => some THERMAL_TABLE_TC1
  | 2 => some THERMAL_TABLE_TC2
  | 3 => some THERMAL_TABLE_TC3
  | 4 => some THERMAL_TABLE_TC4
  | 5 => some THERMAL_TABLE_TC5
  | 6 => some THERMAL_TABLE_TC5
  | _ => none

/-- The table line selected by the key string `"{dir}_{trust}"`
(source line 1024). -/
def selectLine (t : ClassTable) : FlowDir → Trust → List (String × Nat)
  | .p2c, .trust => t.p2c_trust
  | .p2c, .untrust => t.p2c_untrust
  | .c2p, .trust => t.c2p_trust
  | .c2p, .untrust => t.c2p_untrust
  | .unk, .trust => t.unk_trust
  | .unk, .untrust => t.unk_untrust

/-- Split a character list at colons (the `key.split(':')` of source line
1026). -/
def splitColonAux : List Char → List Char → List (List Char)
  | [], acc => [acc.reverse]
  | c :: rest, acc =>
      if c = ':' then acc.reverse :: splitColonAux rest []
      else splitColonAux rest (c :: acc)

/-- Parse a band key `"lo:hi"` exactly as source lines 1026-1028 do:
split on the colon and convert both halves with `int`.  The keys of the
tables above all parse; the `getD 0` never fires on them. -/
def parseBand (key : String) : Int × Int :=
  match splitColonAux key.data [] with
  | [a, b] => ((pyInt? (String.mk a)).getD 0, (pyInt? (String.mk b)).getD 0)
  | _ => (0, 0)

/-- The band-iteration of `_set_pwm_min_threshold` (source lines
1025-1031): first band whose scaled range contains the ambient wins. -/
def lookupBands : List (String × Nat) → Int → Option Nat
  | [], _ => none
  | (k, v) :: rest, amb =>
      let lo := (parseBand k).1 * 1000
      let hi := (parseBand k).2 * 1000
      if lo ≤ amb ∧ amb ≤ hi then some v else lookupBands rest amb

/-- `_tz_check_suspend` (source lines 687-697). -/
def tzCheckSuspend (t : Tree) : Bool :=
  treeRead t "config/suspend" "0" = "1"

/-- `_check_untrested_module_sensor` (source lines 772-784): walk the
modules; a suspend observed mid-walk aborts with `False`; a module with
`temp_fault = '1'` yields `True`. -/
def checkUntrustedModuleSensor (t : Tree) : List Nat → Bool
  | [] => false
  | i :: rest =>
      if tzCheckSuspend t then false
      else if treeRead t ("thermal/module" ++ toString i ++ "_temp_fault") "0" = "1" then true
      else checkUntrustedModuleSensor t rest

/-- Result of `_set_pwm_min_threshold`. -/
structure PwmMinOut where
  flow_dir : FlowDir
  trusted : Trust
  ambient : Int
  fan_dynamic_min : Nat
deriving DecidableEq

/-- `_set_pwm_min_threshold` (source lines 999-1031): derive trust and
airflow direction, pick the cooler-side ambient, and look the ambient up in
the selected table line; `fan_dynamic_min` keeps its previous value `cur`
when no band matches. -/
def set_pwm_min_threshold (tbl : ThermalTableEntry) (t : Tree)
    (module_counter : Nat) (cur : Nat) : PwmMinOut :=
  let trusted : Trust :=
    if checkUntrustedModuleSensor t (List.range' 1 module_counter) then .untrust else .trust
  let temp_fan_ambient := treeReadInt t "thermal/fan_amb" 0
  let temp_port_ambient := treeReadInt t "thermal/port_amb" 0
  let ambDir : Int × FlowDir :=
    if temp_fan_ambient > temp_port_ambient then (temp_port_ambient, .p2c)
    else if temp_fan_ambient < temp_port_ambient then (temp_fan_ambient, .c2p)
    else (temp_fan_ambient, .unk)
  let line := selectLine tbl.table ambDir.2 trusted
  ⟨ambDir.2, trusted, ambDir.1, (lookupBands line ambDir.1).getD cur⟩

/-- `_set_pwm_min_speed` (source lines 1033-1040): untrusted modules pick
the untrust fallback of the `THERMAL_TABLE_LIST` entry, otherwise the trust
fallback. -/
def set_pwm_min_speed (tbl : ThermalTableEntry) (t : Tree)
    (module_counter : Nat) : Nat :=
  if checkUntrustedModuleSensor t (List.range' 1 module_counter) then tbl.untrust_fb
  else tbl.trust_fb

/-- The initial `fan_dynamic_min` set in the constructor (source line 506). -/
def fan_dynamic_min_init : Nat := 12

/-- All minimum-fan values a class table can produce. -/
def tableVals (t : ClassTable) : List Nat :=
  (t.p2c_trust ++ t.p2c_untrust ++ t.c2p_trust ++ t.c2p_untrust ++
   t.unk_trust ++ t.unk_untrust).map Prod.snd

lemma selectLine_vals_sub (t : ClassTable) (d : FlowDir) (tr : Trust) :
    ∀ v ∈ (selectLine t d tr).map Prod.snd, v ∈ tableVals t := by
  intro v hv
  cases d <;> cases tr <;>
    simp only [selectLine] at hv <;>
    simp [tableVals, List.mem_append, hv]

lemma lookupBands_cases (l : List (String × Nat)) (amb : Int) :
    lookupBands l amb = none ∨
      ∃ v ∈ l.map Prod.snd, lookupBands l amb = some v := by
  induction l with
  | nil => exact Or.inl rfl
  | cons kv rest ih =>
      by_cases h : (parseBand kv.1).1 * 1000 ≤ amb ∧ amb ≤ (parseBand kv.1).2 * 1000
      · exact Or.inr ⟨kv.2, by simp, by simp [lookupBands, h]⟩
      · rcases ih with h0 | ⟨v, hv, he⟩
        · exact Or.inl (by simp [lookupBands, h, h0])
        · exact Or.inr ⟨v, by simp [hv], by simp [lookupBands, h, he]⟩

/-- C2: the in-memory `fan_dynamic_min` stays in 10..20: the constructor
initialises it to 12, and for every supported thermal class 1..6, every
tree contents (hence every ambient pair and module-fault pattern) and every
in-range previous value, both `_set_pwm_min_threshold` and
`_set_pwm_min_speed` leave it in 10..20. -/
theorem c2_dynamic_min_range (cls : Nat) (tbl : ThermalTableEntry) (t : Tree)
    (module_counter : Nat) (cur : Nat)
    (htbl : get_fan_dynamic_table cls = some tbl)
    (hcur1 : 10 ≤ cur) (hcur2 : cur ≤ 20) :
    (10 ≤ fan_dynamic_min_init ∧ fan_dynamic_min_init ≤ 20) ∧
    (10 ≤ (set_pwm_min_threshold tbl t module_counter cur).fan_dynamic_min ∧
      (set_pwm_min_threshold tbl t module_counter cur).fan_dynamic_min ≤ 20) ∧
    (10 ≤ set_pwm_min_speed tbl t module_counter ∧
      set_pwm_min_speed tbl t module_counter ≤ 20) := by
  have hvals : ∀ v ∈ tableVals tbl.table, 10 ≤ v ∧ v ≤ 20 := by
    match cls, htbl with
    | 1, htbl => cases htbl; decide
    | 2, htbl => cases htbl; decide
    | 3, htbl => cases htbl; decide
    | 4, htbl => cases htbl; decide
    | 5, htbl => cases htbl; decide
    | 6, htbl => cases htbl; decide
  have hfb : (10 ≤ tbl.trust_fb ∧ tbl.trust_fb ≤ 20) ∧
      (10 ≤ tbl.untrust_fb ∧ tbl.untrust_fb ≤ 20) := by
    match cls, htbl with
    | 1, htbl => cases htbl; decide
    | 2, htbl => cases htbl; decide
    | 3, htbl => cases htbl; decide
    | 4, htbl => cases htbl; decide
    | 5, htbl => cases htbl; decide
    | 6, htbl => cases htbl; decide
  refine ⟨⟨by decide, by decide⟩, ?_, ?_⟩
  · unfold set_pwm_min_threshold
    rcases lookupBands_cases
        (selectLine tbl.table
          (if treeReadInt t "thermal/fan_amb" 0 > treeReadInt t "thermal/port_amb" 0 then
              ((treeReadInt t "thermal/port_amb" 0, FlowDir.p2c) : Int × FlowDir)
            else if treeReadInt t "thermal/fan_amb" 0 < treeReadInt t "thermal/port_amb" 0 then
              (treeReadInt t "thermal/fan_amb" 0, FlowDir.c2p)
            else (treeReadInt t "thermal/fan_amb" 0, FlowDir.unk)).2
          (if checkUntrustedModuleSensor t (List.range' 1 module_counter) then
              Trust.untrust else Trust.trust))
        (if treeReadInt t "thermal/fan_amb" 0 > treeReadInt t "thermal/port_amb" 0 then
            ((treeReadInt t "thermal/port_amb" 0, FlowDir.p2c) : Int × FlowDir)
          else if treeReadInt t "thermal/fan_amb" 0 < treeReadInt t "thermal/port_amb" 0 then
            (treeReadInt t "thermal/fan_amb" 0, FlowDir.c2p)
          else (treeReadInt t "thermal/fan_amb" 0, FlowDir.unk)).1
      with h | ⟨v, hv, he⟩
    · simp only [h, Option.getD_none]
      exact ⟨hcur1, hcur2⟩
    · simp only [he, Option.getD_some]
      exact hvals v (selectLine_vals_sub _ _ _ v hv)
  · unfold set_pwm_min_speed
    split
    · exact hfb.2
    · exact hfb.1

/-- Witness for `c2_dynamic_min_range`: class 1 on an empty tree with the
initial value 12. -/
theorem c2_dynamic_min_range_witness :
    (10 ≤ fan_dynamic_min_init ∧ fan_dynamic_min_init ≤ 20) ∧
    (10 ≤ (set_pwm_min_threshold THERMAL_TABLE_TC1 [] 0 12).fan_dynamic_min ∧
      (set_pwm_min_threshold THERMAL_TABLE_TC1 [] 0 12).fan_dynamic_min ≤ 20) ∧
    (10 ≤ set_pwm_min_speed THERMAL_TABLE_TC1 [] 0 ∧
      set_pwm_min_speed THERMAL_TABLE_TC1 [] 0 ≤ 20) :=
  c2_dynamic_min_range 1 THERMAL_TABLE_TC1 [] 0 12 rfl (by decide) (by decide)

/-- The tree of the C7 scenario: class 1, `fan_amb` 45000, `port_amb`
20000, module 1 reporting a temperature-sensor fault. -/
def c7Tree : Tree :=
  [("thermal/fan_amb", "45000"), ("thermal/port_amb", "20000"),
   ("thermal/module1_temp_fault", "1")]

/-- C7 counterexample: with thermal class 1, `fan_amb = 45000`,
`port_amb = 20000` and `module1_temp_fault = 1`, the direction is `p2c` and
trust is `untrust` as claimed, but `p2c` selects the port-side ambient
20000, whose band in `TC1 p2c_untrust` is `-127:25`, so `fan_dynamic_min`
becomes 13 and not 16 (the bands are pairwise disjoint here, so the dict
iteration order of the source cannot change the result). -/
theorem c7_counterexample :
    set_pwm_min_threshold THERMAL_TABLE_TC1 c7Tree 1 12 =
      ⟨.p2c, .untrust, 20000, 13⟩ ∧
    (set_pwm_min_threshold THERMAL_TABLE_TC1 c7Tree 1 12).fan_dynamic_min ≠ 16 := by
  refine ⟨by decide, by decide⟩

/-- C7 (amended): with thermal class 1, `fan_amb = 45000`, `port_amb =
20000` and `module1_temp_fault = 1`, `_set_pwm_min_threshold` yields
direction `p2c`, trust `untrust`, and `fan_dynamic_min = 13` from the TC1
`p2c_untrust` band `-127:25`, the band containing the port-side ambient
20000 that `p2c` selects. -/
theorem c7_amended :
    (set_pwm_min_threshold THERMAL_TABLE_TC1 c7Tree 1 12).flow_dir = .p2c ∧
    (set_pwm_min_threshold THERMAL_TABLE_TC1 c7Tree 1 12).trusted = .untrust ∧
    (set_pwm_min_threshold THERMAL_TABLE_TC1 c7Tree 1 12).fan_dynamic_min = 13 ∧
    lookupBands TABLE_CLASS1.p2c_untrust 20000 = some 13 := by
  refine ⟨by decide, by decide, by decide, by decide⟩

/-! ### The periodic report (source lines 786-888) -/

/-- A thermal zone attribute dictionary as materialised by `_get_tz_val`. -/
structure TzVal where
  temp : String
  mode : String
  tr_norm : String
  tr_high : String
  tr_hot : String
  tr_crit : String
  policy : String
deriving DecidableEq

/-- `_get_tz_val` (source lines 786-804): the dict is produced only when
the zone temperature reads non-empty and the zone mode is `enabled`. -/
def get_tz_val (t : Tree) (tz_name : String) : Option TzVal :=
  let temp := treeRead t (tz_name ++ "/thermal_zone_temp") "0"
  if temp ≠ "" then
    let mode := treeRead t (tz_name ++ "/thermal_zone_mode") "0"
    if mode = "enabled" then
      some ⟨temp, mode,
        treeRead t (tz_name ++ "/temp_trip_norm") "0",
        treeRead t (tz_name ++ "/temp_trip_high") "0",
        treeRead t (tz_name ++ "/temp_trip_hot") "0",
        treeRead t (tz_name ++ "/temp_trip_crit") "0",
        treeRead t (tz_name ++ "/thermal_zone_policy") "0"⟩
    else none
  else none

/-- The tacho readings the report logs (source lines 835-839): index, speed
and fault string for every tacho with non-zero speed. -/
def reportTachoObs (t : Tree) : List Nat → List (Nat × Int × String)
  | [] => []
  | i :: rest =>
      let tacho := treeReadInt t ("thermal/fan" ++ toString i ++ "_speed_get") 0
      if tacho ≠ 0 then
        (i, tacho, treeRead t ("thermal/fan" ++ toString i ++ "_fault") "0") ::
          reportTachoObs t rest
      else reportTachoObs t rest

/-- The module readings the report logs (source lines 841-863): for every
module with non-zero `_temp_input`, the fault/crit/emergency triple when the
input is positive, and the zone dict. -/
def reportModuleObs (t : Tree) :
    List Nat → List (Nat × Int × Option (Int × Int × Int) × Option TzVal)
  | [] => []
  | i :: rest =>
      let ti := treeReadInt t ("thermal/module" ++ toString i ++ "_temp_input") 0
      if ti ≠ 0 then
        (i, ti,
          (if ti > 0 then
            some (treeReadInt t ("thermal/module" ++ toString i ++ "_temp_fault") 0,
                  treeReadInt t ("thermal/module" ++ toString i ++ "_temp_crit") 0,
                  treeReadInt t ("thermal/module" ++ toString i ++ "_temp_emergency") 0)
           else none),
          get_tz_val t ("thermal/mlxsw-module" ++ toString i)) ::
          reportModuleObs t rest
      else reportModuleObs t rest

/-- The gearbox readings the report logs (source lines 864-878). -/
def reportGearboxObs (t : Tree) : List Nat → List (Nat × Int × Option TzVal)
  | [] => []
  | i :: rest =>
      let ti := treeReadInt t ("thermal/temp_input_gearbox" ++ toString i) 0
      if ti ≠ 0 then
        (i, ti, get_tz_val t ("thermal/mlxsw-gearbox" ++ toString i)) ::
          reportGearboxObs t rest
      else reportGearboxObs t rest

/-- The outcome of one `thermal_periodic_report` call: the tree it leaves
behind, the controller fields it mutates, whether the `PSU_FAN_SPEED`
subscription succeeded (`ok = false` models the `IndexError` escaping), the
ambient readings used by the header log lines, and the logged
observations. -/
structure ReportOut where
  tree : Tree
  set_cur_state : Int
  fan_dynamic_state : Int
  ok : Bool
  asic_temp : Int
  fan_temp : Int
  port_temp : Int
  pwm : Int
  tachoObs : List (Nat × Int × String)
  moduleObs : List (Nat × Int × Option (Int × Int × Int) × Option TzVal)
  gearboxObs : List (Nat × Int × Option TzVal)
  asicZone : Option TzVal

/-- `thermal_periodic_report` (source lines 806-888).  Every file access in
the routine is a read; the mutation of `self.set_cur_state` happens before
the `PSU_FAN_SPEED` subscription, so it survives even when the subscription
raises (the observation lists are then never produced). -/
def thermal_periodic_report (t : Tree) (fan_dynamic_min set_cur_state : Int)
    (max_tachos module_counter gearbox_counter : Nat) : ReportOut :=
  let asic_temp := treeReadInt t "thermal/mlxsw/thermal_zone_temp" 0
  let fan_temp := treeReadInt t "thermal/fan_amb" 0
  let port_temp := treeReadInt t "thermal/port_amb" 0
  let cooling := treeReadInt t "thermal/cooling_cur_state" 0
  let pwm := treeReadInt t "thermal/pwm1" 0
  let fds0 := fan_dynamic_min - FAN_MAX_STATE
  let scs :=
    if cooling > set_cur_state then cooling
    else if cooling ≥ fds0 then cooling
    else set_cur_state
  let fds :=
    if cooling > set_cur_state then (if cooling > fds0 then cooling else fds0)
    else if cooling ≥ fds0 then cooling
    else fds0
  let ok := (pyListGet PSU_FAN_SPEED fds).isSome
  ⟨t, scs, fds, ok, asic_temp, fan_temp, port_temp, pwm,
    if ok then reportTachoObs t (List.range' 1 max_tachos) else [],
    if ok then reportModuleObs t (List.range' 1 module_counter) else [],
    if ok then reportGearboxObs t (List.range' 1 gearbox_counter) else [],
    if ok then get_tz_val t "thermal/mlxsw" else none⟩

/-- C10: `thermal_periodic_report` leaves the hw-management tree untouched,
and overwrites the in-memory `set_cur_state` with the `cooling_cur_state`
value it read exactly when that value exceeds the current `set_cur_state`
or is at least `fan_dynamic_min - FAN_MAX_STATE`; otherwise `set_cur_state`
is unchanged. -/
theorem c10_report_frame (t : Tree) (fan_dynamic_min set_cur_state : Int)
    (max_tachos module_counter gearbox_counter : Nat) :
    (thermal_periodic_report t fan_dynamic_min set_cur_state
        max_tachos module_counter gearbox_counter).tree = t ∧
    (thermal_periodic_report t fan_dynamic_min set_cur_state
        max_tachos module_counter gearbox_counter).set_cur_state =
      (let cooling := treeReadInt t "thermal/cooling_cur_state" 0
       if cooling > set_cur_state ∨ cooling ≥ fan_dynamic_min - FAN_MAX_STATE then
         cooling
       else set_cur_state) := by
  unfold thermal_periodic_report
  refine ⟨rfl, ?_⟩
  simp only
  split_ifs <;> omega

/-! ### Emergency paths (source lines 890-997) and the re-enable block
(source lines 1312-1319) -/

/-- The module sweep of the `_get_fan_faults` emergency body (source lines
973-981).  The mode write goes through `_thermal_write_file`; the policy
write (source line 980) passes the literal, unformatted string
`"mlxsw-module\x7b0\x7dthermal_zone_policy"` to `_write_file` and formats
`"user_space"` (which has no placeholder) instead of the path. -/
def fanFaultModuleLoop (t : Tree) : List Nat → Tree
  | [] => t
  | m :: rest =>
      let t1 :=
        if treeRead t ("thermal/mlxsw-module" ++ toString m ++ "/thermal_zone_mode") "0"
            = "enabled" then
          treeWrite t ("thermal/mlxsw-module" ++ toString m ++ "/thermal_zone_mode") "disabled"
        else t
      let t2 :=
        if treeRead t1 ("thermal/mlxsw-module" ++ toString m ++ "/thermal_zone_policy") "0"
            = "step_wise" then
          treeWrite t1 "mlxsw-module\x7b0\x7dthermal_zone_policy" "user_space"
        else t1
      fanFaultModuleLoop t2 rest

/-- The gearbox sweep of the `_get_fan_faults` emergency body (source lines
983-991); the policy write (source line 990) has the same literal-path slip
as the module sweep. -/
def fanFaultGearboxLoop (t : Tree) : List Nat → Tree
  | [] => t
  | m :: rest =>
      let t1 :=
        if treeRead t ("thermal/mlxsw-gearbox" ++ toString m ++ "/thermal_zone_mode") "0"
            = "enabled" then
          treeWrite t ("thermal/mlxsw-gearbox" ++ toString m ++ "/thermal_zone_mode") "disabled"
        else t
      let t2 :=
        if treeRead t1 ("thermal/mlxsw-gearbox" ++ toString m ++ "/thermal_zone_policy") "0"
            = "step_wise" then
          treeWrite t1 "mlxsw-gearbox\x7b0\x7dthermal_zone_policy" "user_space"
        else t1
      fanFaultGearboxLoop t2 rest

/-- The `_get_fan_faults` emergency body (source lines 962-995): disable
the ASIC zone if enabled; if its policy is `step_wise`, write `user_space`
through `_write_file` to `mlxsw/thermal_zone_policy` — a root-relative
path, not the zone's `thermal/mlxsw/thermal_zone_policy` file (source line
969); sweep modules and gearboxes; set `set_cur_state` to
`COOLING_SET_MAX_STATE - FAN_MAX_STATE` and write that same value (not
`COOLING_SET_MAX_STATE`) to `cooling_cur_state` (source line 994).  Returns
the tree, the new `set_cur_state` and `pwm_required_act`. -/
def fanFaultEmergency (t : Tree) (module_counter gearbox_counter : Nat) :
    Tree × Int × Int :=
  let t1 :=
    if treeRead t "thermal/mlxsw/thermal_zone_mode" "0" = "enabled" then
      treeWrite t "thermal/mlxsw/thermal_zone_mode" "disabled"
    else t
  let t2 :=
    if treeRead t1 "thermal/mlxsw/thermal_zone_policy" "0" = "step_wise" then
      treeWrite t1 "mlxsw/thermal_zone_policy" "user_space"
    else t1
  let t3 := fanFaultModuleLoop t2 (List.range' 1 module_counter)
  let t4 := fanFaultGearboxLoop t3 (List.range' 1 gearbox_counter)
  let scs := COOLING_SET_MAX_STATE - FAN_MAX_STATE
  (treeWrite t4 "thermal/cooling_cur_state" (toString scs), scs, PWM_MAX)

/-- `_get_fan_faults` (source lines 951-997): walk the tacho indices; the
first tacho with `fault = 1` (default on a missing or unparseable file) or
`speed = 0` triggers the emergency body. -/
def get_fan_faults (t : Tree) (module_counter gearbox_counter : Nat)
    (set_cur_state : Int) : List Nat → Tree × Int × Int
  | [] => (t, set_cur_state, PWM_NOACT)
  | i :: rest =>
      let fault := treeReadInt t ("thermal/fan" ++ toString i ++ "_fault") 1
      let speed := treeReadInt t ("thermal/fan" ++ toString i ++ "_speed_get") 0
      if fault = 1 ∨ speed = 0 then fanFaultEmergency t module_counter gearbox_counter
      else get_fan_faults t module_counter gearbox_counter set_cur_state rest

/-- The module sweep of the `_get_psu_presence` emergency body (source
lines 911-918).  Here the policy path is formatted correctly but written
through `_write_file`, so it lands at the root-relative
`mlxsw-moduleN/thermal_zone_policy`, outside the `thermal/` subtree
(source line 917). -/
def psuAbsentModuleLoop (t : Tree) : List Nat → Tree
  | [] => t
  | m :: rest =>
      let t1 :=
        if treeRead t ("thermal/mlxsw-module" ++ toString m ++ "/thermal_zone_mode") "0"
            = "enabled" then
          treeWrite t ("thermal/mlxsw-module" ++ toString m ++ "/thermal_zone_mode") "disabled"
        else t
      let t2 :=
        if treeRead t1 ("thermal/mlxsw-module" ++ toString m ++ "/thermal_zone_policy") "0"
            = "step_wise" then
          treeWrite t1 ("mlxsw-module" ++ toString m ++ "/thermal_zone_policy") "user_space"
        else t1
      psuAbsentModuleLoop t2 rest

/-- The gearbox sweep of the `_get_psu_presence` emergency body (source
lines 920-927), with the same root-relative policy write (source line
926). -/
def psuAbsentGearboxLoop (t : Tree) : List Nat → Tree
  | [] => t
  | m :: rest =>
      let t1 :=
        if treeRead t ("thermal/mlxsw-gearbox" ++ toString m ++ "/thermal_zone_mode") "0"
            = "enabled" then
          treeWrite t ("thermal/mlxsw-gearbox" ++ toString m ++ "/thermal_zone_mode") "disabled"
        else t
      let t2 :=
        if treeRead t1 ("thermal/mlxsw-gearbox" ++ toString m ++ "/thermal_zone_policy") "0"
            = "step_wise" then
          treeWrite t1 ("mlxsw-gearbox" ++ toString m ++ "/thermal_zone_policy") "user_space"
        else t1
      psuAbsentGearboxLoop t2 rest

/-- The `_get_psu_presence` emergency body (source lines 900-931): the
ASIC policy switch only happens when the mode was `enabled`, and its write
goes through `_write_file` to the root-relative `mlxsw/thermal_zone_policy`
(source line 907); `cooling_cur_state` here does receive
`COOLING_SET_MAX_STATE` (source line 930). -/
def psuAbsentEmergency (t : Tree) (module_counter gearbox_counter : Nat) :
    Tree × Int × Int :=
  let t2 :=
    if treeRead t "thermal/mlxsw/thermal_zone_mode" "0" = "enabled" then
      let ta := treeWrite t "thermal/mlxsw/thermal_zone_mode" "disabled"
      if treeRead ta "thermal/mlxsw/thermal_zone_policy" "0" = "step_wise" then
        treeWrite ta "mlxsw/thermal_zone_policy" "user_space"
      else ta
    else t
  let t3 := psuAbsentModuleLoop t2 (List.range' 1 module_counter)
  let t4 := psuAbsentGearboxLoop t3 (List.range' 1 gearbox_counter)
  (treeWrite t4 "thermal/cooling_cur_state" (toString COOLING_SET_MAX_STATE),
   COOLING_SET_MAX_STATE - FAN_MAX_STATE, PWM_MAX)

/-- `_get_psu_presence` (source lines 890-933): the first PSU whose
`psuN_status` reads 0 (default on a missing file) triggers the emergency
body. -/
def get_psu_presence (t : Tree) (module_counter gearbox_counter : Nat)
    (set_cur_state : Int) : List Nat → Tree × Int × Int
  | [] => (t, set_cur_state, PWM_NOACT)
  | i :: rest =>
      let present := treeReadInt t ("thermal/psu" ++ toString i ++ "_status") 0
      if present = 0 then psuAbsentEmergency t module_counter gearbox_counter
      else get_psu_presence t module_counter gearbox_counter set_cur_state rest

/-- A healthy-looking tree in which tacho 1 reports a fault while the ASIC
zone is enabled under the step-wise policy. -/
def faultTickTree : Tree :=
  [("thermal/fan1_fault", "1"), ("thermal/fan1_speed_get", "5000"),
   ("thermal/mlxsw/thermal_zone_mode", "enabled"),
   ("thermal/mlxsw/thermal_zone_policy", "step_wise")]

/-- C1 evaluated on the code: a tick whose `_get_fan_faults` observes
`fan1_fault = 1` ends with `thermal/cooling_cur_state = "10"` (the value of
`COOLING_SET_MAX_STATE - FAN_MAX_STATE`), not the claimed
`COOLING_SET_MAX_STATE = 20`; the ASIC mode is disabled as claimed, but the
zone's `thermal/mlxsw/thermal_zone_policy` still reads `step_wise` because
the `user_space` write went to the root-relative `mlxsw/thermal_zone_policy`
path. -/
theorem c1_code_eval :
    (get_fan_faults faultTickTree 0 0 0 (List.range' 1 1)).2.2 = PWM_MAX ∧
    treeRead (get_fan_faults faultTickTree 0 0 0 (List.range' 1 1)).1
      "thermal/cooling_cur_state" "0" = "10" ∧
    treeRead (get_fan_faults faultTickTree 0 0 0 (List.range' 1 1)).1
      "thermal/cooling_cur_state" "0" ≠ toString COOLING_SET_MAX_STATE ∧
    treeRead (get_fan_faults faultTickTree 0 0 0 (List.range' 1 1)).1
      "thermal/mlxsw/thermal_zone_mode" "0" = "disabled" ∧
    treeRead (get_fan_faults faultTickTree 0 0 0 (List.range' 1 1)).1
      "thermal/mlxsw/thermal_zone_policy" "0" = "step_wise" ∧
    treeRead (get_fan_faults faultTickTree 0 0 0 (List.range' 1 1)).1
      "mlxsw/thermal_zone_policy" "0" = "user_space" := by
  refine ⟨rfl, rfl, by decide, rfl, rfl, rfl⟩

/-- The ASIC re-enable block of `thermal_poll` (source lines 1312-1319,
reached because `CALCULATE_TZ_SCORE = 1`): when the ASIC mode reads
`disabled` and `highest_tz_num` reads 0, the mode is set to `enabled` and
the policy to the literal `"step_wice"` of source line 1318. -/
def reEnableAsicBlock (t : Tree) : Tree :=
  let mode := treeRead t "thermal/mlxsw/thermal_zone_mode" "0"
  let highest_tz_num := treeReadInt t "thermal/highest_tz_num" 0
  if mode = "disabled" ∧ highest_tz_num = 0 then
    treeWrite (treeWrite t "thermal/mlxsw/thermal_zone_mode" "enabled")
      "thermal/mlxsw/thermal_zone_policy" "step_wice"
  else t

/-- C5 evaluated on the code: after the tacho-fault emergency disables the
ASIC zone, the next clean tick's re-enable block (with `highest_tz_num`
absent, hence 0) does set `thermal_zone_mode = enabled`, but writes the
policy as the misspelled `"step_wice"`, so the mode/policy pair is not
restored to `(enabled, step_wise)` as the claim states. -/
theorem c5_code_eval :
    treeRead (reEnableAsicBlock (get_fan_faults faultTickTree 0 0 0 (List.range' 1 1)).1)
      "thermal/mlxsw/thermal_zone_mode" "0" = "enabled" ∧
    treeRead (reEnableAsicBlock (get_fan_faults faultTickTree 0 0 0 (List.range' 1 1)).1)
      "thermal/mlxsw/thermal_zone_policy" "0" = "step_wice" ∧
    treeRead (reEnableAsicBlock (get_fan_faults faultTickTree 0 0 0 (List.range' 1 1)).1)
      "thermal/mlxsw/thermal_zone_policy" "0" ≠ "step_wise" := by
  refine ⟨rfl, rfl, by decide⟩

/-! ### Configuration validation (source lines 730-770) -/

/-- `_validate_thermal_configuration` (source lines 730-770).  The tacho
check reads `fanN_fault` / `fanN_speed_get` through `_thermal_read_file`,
whose default for a missing file is `'0'`, and fails only on a read equal
to the empty string; all the remaining checks are `_check_file` existence
tests.  Boolean short-circuiting reproduces the source's early returns. -/
def validate_thermal_configuration (t : Tree)
    (max_tachos module_counter max_psus : Nat) : Bool :=
  ((List.range' 1 max_tachos).all fun i =>
      !(treeRead t ("thermal/fan" ++ toString i ++ "_fault") "0" == "") &&
      !(treeRead t ("thermal/fan" ++ toString i ++ "_speed_get") "0" == "")) &&
  (treeExists t "thermal/cooling_cur_state" &&
   treeExists t "thermal/mlxsw/thermal_zone_mode" &&
   treeExists t "thermal/mlxsw/temp_trip_norm" &&
   treeExists t "thermal/mlxsw/thermal_zone_temp") &&
  (treeExists t "thermal/pwm1" && treeExists t "thermal/asic") &&
  ((List.range' 1 module_counter).all fun i =>
      !(treeExists t ("thermal/module" ++ toString i ++ "_temp")) ||
      treeExists t ("thermal/module" ++ toString i ++ "_temp_fault")) &&
  (treeExists t "thermal/fan_amb" && treeExists t "thermal/port_amb") &&
  ((List.range' 1 max_psus).all fun i =>
      treeExists t ("thermal/psu" ++ toString i ++ "_status"))

/-- A tree holding every attribute the validator looks at, except that
`thermal/fan1_fault` does not exist. -/
def missingFaultTree : Tree :=
  [("thermal/fan1_speed_get", "5000"),
   ("thermal/cooling_cur_state", "6"),
   ("thermal/mlxsw/thermal_zone_mode", "enabled"),
   ("thermal/mlxsw/temp_trip_norm", "75000"),
   ("thermal/mlxsw/thermal_zone_temp", "40000"),
   ("thermal/pwm1", "153"),
   ("thermal/asic", "40000"),
   ("thermal/fan_amb", "25000"),
   ("thermal/port_amb", "30000")]

/-- C8 evaluated on the code: with `max_tachos = 1` and the
`thermal/fan1_fault` file absent, `_validate_thermal_configuration` still
returns true, because the missing file reads as the default `'0'`, which is
not the empty string the check tests for. -/
theorem c8_code_eval :
    treeLookup missingFaultTree "thermal/fan1_fault" = none ∧
    validate_thermal_configuration missingFaultTree 1 0 0 = true := by
  refine ⟨rfl, rfl⟩

/-! ### The trip interlock (source lines 1042-1066) -/

/-- CPython 2 comparison of a `str` against an `int`: objects of different
built-in types order by type, and numeric types sort before every other
type, so every string compares greater than every integer.  This models the
comparison at source line 1056, where `trip_norm` was read as a string
(source line 1055 uses `_thermal_read_file`, not `_thermal_read_file_int`)
while `temp_now` is an int. -/
def py2StrGtInt (_s : String) (_n : Int) : Bool := true

/-- The module sweep of `_check_trip_min_vs_current_temp` (source lines
1046-1052): true when some module forces the early return, i.e. has a
non-zero, positive zone temperature strictly above its `temp_trip_norm`. -/
def checkTripModules (t : Tree) : List Nat → Bool
  | [] => false
  | m :: rest =>
      let temp_now := treeReadInt t
        ("thermal/mlxsw-module" ++ toString m ++ "/thermal_zone_temp") 0
      if temp_now ≠ 0 then
        let trip_norm := treeReadInt t
          ("thermal/mlxsw-module" ++ toString m ++ "/temp_trip_norm") 0
        if temp_now > 0 ∧ trip_norm < temp_now then true
        else checkTripModules t rest
      else checkTripModules t rest

/-- `_check_trip_min_vs_current_temp` (source lines 1042-1066): if no
module forces the early return, compare the ASIC `temp_trip_norm` — read as
a string — against the integer zone temperature with Python 2 semantics,
and on success write `fan_dynamic_min` and then
`fan_dynamic_min - FAN_MAX_STATE` to `cooling_cur_state` and update
`set_cur_state`.  The `state` argument only selects a log message after the
writes, so it is omitted. -/
def check_trip_min_vs_current_temp (t : Tree) (module_counter : Nat)
    (fan_dynamic_min set_cur_state : Int) : Tree × Int :=
  if checkTripModules t (List.range' 1 module_counter) then (t, set_cur_state)
  else
    let temp_now := treeReadInt t "thermal/mlxsw/thermal_zone_temp" 0
    let trip_norm := treeRead t "thermal/mlxsw/temp_trip_norm" "0"
    if py2StrGtInt trip_norm temp_now then
      let scs := fan_dynamic_min - FAN_MAX_STATE
      (treeWrite (treeWrite t "thermal/cooling_cur_state" (toString fan_dynamic_min))
        "thermal/cooling_cur_state" (toString scs), scs)
    else (t, set_cur_state)

/-- A tree whose ASIC zone is hot: the zone temperature 50000 exceeds the
trip-norm 40000, so the claim's ASIC condition `trip_norm > temp` is
false. -/
def hotAsicTree : Tree :=
  [("thermal/mlxsw/thermal_zone_temp", "50000"),
   ("thermal/mlxsw/temp_trip_norm", "40000"),
   ("thermal/cooling_cur_state", "6")]

/-- C3 evaluated on the code: with the ASIC at 50000 against a trip-norm of
40000 the claim's condition `trip_norm > temp` is numerically false, yet
`_check_trip_min_vs_current_temp` still performs the fan reduction —
`cooling_cur_state` is rewritten to `fan_dynamic_min - FAN_MAX_STATE = 3` —
because the string-against-int comparison of source line 1056 is always
true in Python 2. -/
theorem c3_code_eval :
    (check_trip_min_vs_current_temp hotAsicTree 0 13 6).2 = 3 ∧
    treeRead (check_trip_min_vs_current_temp hotAsicTree 0 13 6).1
      "thermal/cooling_cur_state" "0" = "3" ∧
    treeRead (check_trip_min_vs_current_temp hotAsicTree 0 13 6).1
      "thermal/cooling_cur_state" "0"
      ≠ treeRead hotAsicTree "thermal/cooling_cur_state" "0" ∧
    ¬ (treeReadInt hotAsicTree "thermal/mlxsw/temp_trip_norm" 0 >
        treeReadInt hotAsicTree "thermal/mlxsw/thermal_zone_temp" 0) := by
  refine ⟨rfl, rfl, by decide, by decide⟩

/-! ### Zone scores and the highest-zone tracker (source lines 1121-1251) -/

/-- The per-family trip arrays (source lines 121-123). -/
def TZ_ASIC_TRIPS : List Int := [75, 85, 105, 110]
def TZ_MODULE_TRIPS : List Int := [60, 70, 80, 90]
def TZ_GEARBOX_TRIPS : List Int := [75, 85, 105, 110]

/-- `tz_score_calculate` (source lines 1121-1127).  The two `/` are Python
2 integer divisions, i.e. floor divisions, and `int()` on an int is the
identity.  The caller guards the zero denominator (Python would raise
`ZeroDivisionError`). -/
def tz_score_calculate (temp_1 temp_2 shift : Int) : Int :=
  ((temp_2 - temp_1).fdiv 2).fdiv (temp_2 + temp_1) + shift

/-- Outcome of the four-trip-point scan shared by `get_tz_asic_score`,
`get_tz_module_score` and `get_tz_gearbox_score`. -/
inductive ScoreRes where
  | ok (s : Int)
  | crash
  | fallthrough
deriving DecidableEq

/-- The trip loop of the three score routines (source lines 1139-1145,
1157-1162, 1174-1179): at the first trip point above `temp` compute the
score with the accumulated shift; `crash` models the `ZeroDivisionError`
when `temp + trip = 0`; `fallthrough` models completing the loop without a
match, in which case the routine returns its caller's `score` argument
unchanged. -/
def scoreLoop : List Int → Int → Int → ScoreRes
  | [], _, _ => .fallthrough
  | trip :: rest, temp, shift =>
      if temp < trip then
        if temp + trip = 0 then .crash
        else .ok (tz_score_calculate temp trip shift)
      else scoreLoop rest temp (shift * 256)

/-- Zone score from the zone temperature, with the source's initial shift
of 1. -/
def zoneScore (trips : List Int) (temp : Int) : ScoreRes :=
  scoreLoop trips temp 1

/-- The trip tier of a temperature: index of the first trip point strictly
above it. -/
def tierLoop : List Int → Int → Nat → Option Nat
  | [], _, _ => none
  | trip :: rest, temp, k => if temp < trip then some k else tierLoop rest temp (k + 1)

/-- Tier of a zone temperature within a trip array. -/
def zoneTier (trips : List Int) (temp : Int) : Option Nat :=
  tierLoop trips temp 0

/-- A Python return value of the score routines: `retNone` is the bare
`return` on the suspend path, `exc` a raised `ZeroDivisionError`. -/
inductive ZScore where
  | retNone
  | exc
  | ret (v : Int)
deriving DecidableEq

/-- `get_tz_module_score` (source lines 1148-1163): the sensor is floored
to whole degrees by Python integer division. -/
def get_tz_module_score (t : Tree) (module : Nat) (score : Int) : ZScore :=
  if tzCheckSuspend t then .retNone
  else
    let temp_curr := (treeReadInt t
      ("thermal/mlxsw-module" ++ toString module ++ "/thermal_zone_temp") 0).fdiv 1000
    match scoreLoop TZ_MODULE_TRIPS temp_curr 1 with
    | .ok s => .ret s
    | .crash => .exc
    | .fallthrough => .ret score

/-- `get_tz_gearbox_score` (source lines 1165-1180). -/
def get_tz_gearbox_score (t : Tree) (gearbox : Nat) (score : Int) : ZScore :=
  if tzCheckSuspend t then .retNone
  else
    let temp_curr := (treeReadInt t
      ("thermal/mlxsw-gearbox" ++ toString gearbox ++ "/thermal_zone_temp") 0).fdiv 1000
    match scoreLoop TZ_GEARBOX_TRIPS temp_curr 1 with
    | .ok s => .ret s
    | .crash => .exc
    | .fallthrough => .ret score

/-- `get_tz_asic_score` (source lines 1129-1146): like the others, but on a
match it also overwrites `self.max_score` (second component). -/
def get_tz_asic_score (t : Tree) (score : Int) : ZScore × Option Int :=
  if tzCheckSuspend t then (.retNone, none)
  else
    let temp_curr := (treeReadInt t "thermal/mlxsw/thermal_zone_temp" 0).fdiv 1000
    match scoreLoop TZ_ASIC_TRIPS temp_curr 1 with
    | .ok s => (.ret s, some s)
    | .crash => (.exc, none)
    | .fallthrough => (.ret score, none)

/-- The mutable state of the `get_tz_highest` selection phase. -/
structure GtzState where
  tree : Tree
  max_tz : Int
  max_score : Int
  score : Int

/-- The module sweep of `get_tz_highest` (source lines 1190-1198).  Note
the source iterates `range(1, self.module_counter)`, so the caller passes
`List.range' 1 (module_counter - 1)` and the last module never
participates.  `none` models a mid-loop return (suspend) or a raised
exception. -/
def gtzModuleLoop (st : GtzState) : List Nat → Option GtzState
  | [] => some st
  | m :: rest =>
      if treeExists st.tree ("thermal/mlxsw-module" ++ toString m ++ "/thermal_zone_temp") then
        if tzCheckSuspend st.tree then none
        else
          match get_tz_module_score st.tree m st.score with
          | .ret s =>
              if s > st.max_score then
                gtzModuleLoop
                  ⟨treeWrite st.tree "thermal/highest_score" (toString s), m, s, s⟩ rest
              else gtzModuleLoop { st with score := s } rest
          | _ => none
      else gtzModuleLoop st rest

/-- The gearbox sweep of `get_tz_highest` (source lines 1200-1208):
`range(1, self.gearbox_counter)` again, and `max_tz` is set to the raw
gearbox index with no `module_counter` offset. -/
def gtzGearboxLoop (st : GtzState) : List Nat → Option GtzState
  | [] => some st
  | g :: rest =>
      if treeExists st.tree ("thermal/mlxsw-gearbox" ++ toString g ++ "/thermal_zone_temp") then
        if tzCheckSuspend st.tree then none
        else
          match get_tz_gearbox_score st.tree g st.score with
          | .ret s =>
              if s > st.max_score then
                gtzGearboxLoop
                  ⟨treeWrite st.tree "thermal/highest_score" (toString s), g, s, s⟩ rest
              else gtzGearboxLoop { st with score := s } rest
          | _ => none
      else gtzGearboxLoop st rest

/-- The selection phase of `get_tz_highest` (source lines 1186-1208):
start from the persisted `highest_score`, score the ASIC, then sweep
modules and gearboxes. -/
def gtzSelect (t : Tree) (module_counter gearbox_counter : Nat) : Option GtzState :=
  let max_score0 := treeReadInt t "thermal/highest_score" 0
  match get_tz_asic_score t 0 with
  | (.ret s, maxUpd) =>
      (gtzModuleLoop ⟨t, 0, maxUpd.getD max_score0, s⟩
          (List.range' 1 (module_counter - 1))).bind fun st1 =>
        gtzGearboxLoop st1 (List.range' 1 (gearbox_counter - 1))
  | _ => none

/-- Python `"\x7b\x7d".format(b)` on a bool renders `True` or `False`. -/
def pyFormatBool (b : Bool) : String := if b then "True" else "False"

/-- The symlink retarget of `get_tz_highest` (source lines 1218-1225),
reduced to the basename of the new target: when `max_tz` is non-zero and
exceeds `module_counter`, source line 1220 computes
`gearbox_tz = max_tz > self.module_counter` — a boolean — and formats it
into the gearbox zone name; otherwise the target is `mlxsw-module`
followed by `max_tz`. -/
def gtzRelinkTarget (max_tz : Int) (module_counter : Nat) : Option String :=
  if max_tz ≠ 0 then
    if max_tz > (module_counter : Int) then
      some ("mlxsw-gearbox" ++ pyFormatBool (max_tz > (module_counter : Int)))
    else some ("mlxsw-module" ++ toString max_tz)
  else none

/-- The target basenames claim C6 allows for the `highest_thermal_zone`
symlink. -/
def isLegalHighestTarget (module_counter gearbox_counter : Nat) (name : String) : Bool :=
  name == "mlxsw" ||
  (List.range' 1 module_counter).any (fun n => name == "mlxsw-module" ++ toString n) ||
  (List.range' 1 gearbox_counter).any (fun n => name == "mlxsw-gearbox" ++ toString n)

/-- A tree in which gearbox 2 is the hottest zone relative to its trips:
the ASIC sits at 30 degrees (tier-0 score 1), gearbox 1 at 40 (score 1) and
gearbox 2 at 80 (tier-1 score 256). -/
def gearboxWinTree : Tree :=
  [("thermal/highest_score", "0"),
   ("thermal/highest_tz_num", "0"),
   ("thermal/mlxsw/thermal_zone_temp", "30000"),
   ("thermal/mlxsw-gearbox1/thermal_zone_temp", "40000"),
   ("thermal/mlxsw-gearbox2/thermal_zone_temp", "80000")]

/-- C6 evaluated on the code: with `module_counter = 1` and
`gearbox_counter = 3`, gearbox 2 wins the comparison, so `max_tz = 2 >
module_counter` and the symlink is recreated pointing at
`mlxsw-gearboxTrue` — the formatted boolean, not `mlxsw-gearbox1`
(`max_tz - module_counter`) — a basename outside the claimed legal set;
moreover the module sweep iterates `range(1, 1) = []`, so module 1 (a
module with a live zone temperature) never participates. -/
theorem c6_code_eval :
    (gtzSelect gearboxWinTree 1 3).map GtzState.max_tz = some 2 ∧
    gtzRelinkTarget 2 1 = some "mlxsw-gearboxTrue" ∧
    isLegalHighestTarget 1 3 "mlxsw-gearboxTrue" = false ∧
    List.range' 1 (1 - 1) = ([] : List Nat) := by
  refine ⟨rfl, rfl, rfl, rfl⟩

/-! ### Properties of the score function (claim C9) -/

lemma delta_eq_zero (t trip : Int) (h0 : 0 ≤ t) (ht : t < trip) :
    ((trip - t).fdiv 2).fdiv (trip + t) = 0 := by
  rw [Int.fdiv_eq_ediv _ (by norm_num : (0:Int) ≤ 2),
      Int.fdiv_eq_ediv _ (by omega : (0:Int) ≤ trip + t)]
  exact Int.ediv_eq_zero_of_lt (by omega) (by omega)

lemma tier0_bound (t a : Int) (h0a : 0 < a) (ht : t < a) (hden : a + t ≠ 0) :
    ((a - t).fdiv 2).fdiv (a + t) + 1 ≤ a := by
  rw [Int.fdiv_eq_ediv _ (by norm_num : (0:Int) ≤ 2)]
  rcases lt_or_gt_of_ne hden with hneg | hpos
  · have h := Int.fdiv_nonpos (a := (a - t) / 2) (b := a + t) (by omega) (by omega)
    set q := ((a - t) / 2).fdiv (a + t) with hq
    omega
  · rw [Int.fdiv_eq_ediv _ (by omega : (0:Int) ≤ a + t)]
    have h := Int.ediv_le_self (a := (a - t) / 2) (a + t) (by omega)
    set q := (a - t) / 2 / (a + t) with hq
    omega

lemma score_of_tier_nonneg (a b c d t : Int) (k : Nat) (h0t : 0 ≤ t)
    (htier : zoneTier [a, b, c, d] t = some k) :
    zoneScore [a, b, c, d] t = .ok (256 ^ k) := by
  simp only [zoneTier, tierLoop, zoneScore, scoreLoop] at htier ⊢
  split_ifs at htier ⊢ with h1 h2 h3 h4 h5 h6 h7 h8 <;>
    first
    | omega
    | (cases htier
       simp only [tz_score_calculate, ScoreRes.ok.injEq]
       rw [delta_eq_zero t _ h0t (by omega)]
       norm_num)

lemma score_char (a b c d t : Int) (h0a : 0 < a) (hab : a < b)
    (hbc : b < c) (_hcd : c < d) (k : Nat) (s : Int)
    (htier : zoneTier [a, b, c, d] t = some k)
    (hs : zoneScore [a, b, c, d] t = .ok s) :
    (k = 0 ∧ t < a ∧ a + t ≠ 0 ∧ s = ((a - t).fdiv 2).fdiv (a + t) + 1) ∨
    (k = 1 ∧ a ≤ t ∧ t < b ∧ s = 256) ∨
    (k = 2 ∧ b ≤ t ∧ t < c ∧ s = 65536) ∨
    (k = 3 ∧ c ≤ t ∧ t < d ∧ s = 16777216) := by
  simp only [zoneTier, tierLoop, zoneScore, scoreLoop] at htier hs
  split_ifs at htier hs with h1 h2 h3 h4 h5 h6 h7 h8
  all_goals try cases hs
  all_goals try cases htier
  · left
    exact ⟨rfl, h1, by omega, by simp [tz_score_calculate]⟩
  · right; left
    refine ⟨rfl, by omega, h3, ?_⟩
    simp only [tz_score_calculate]
    rw [delta_eq_zero t b (by omega) h3]
    norm_num
  · right; right; left
    refine ⟨rfl, by omega, h5, ?_⟩
    simp only [tz_score_calculate]
    rw [delta_eq_zero t c (by omega) h5]
    norm_num
  · right; right; right
    refine ⟨rfl, by omega, h7, ?_⟩
    simp only [tz_score_calculate]
    rw [delta_eq_zero t d (by omega) h7]
    norm_num

lemma score4_spec (a b c d : Int) (h0a : 0 < a) (hab : a < b) (hbc : b < c)
    (hcd : c < d) (h255 : a ≤ 255) :
    (∀ t k, 0 ≤ t → zoneTier [a, b, c, d] t = some k →
      zoneScore [a, b, c, d] t = .ok (256 ^ k)) ∧
    (∀ t1 t2 k1 k2 s1 s2, zoneTier [a, b, c, d] t1 = some k1 →
      zoneTier [a, b, c, d] t2 = some k2 → k1 < k2 →
      zoneScore [a, b, c, d] t1 = .ok s1 → zoneScore [a, b, c, d] t2 = .ok s2 →
      s1 < s2) := by
  constructor
  · intro t k h0t htier
    exact score_of_tier_nonneg a b c d t k h0t htier
  · intro t1 t2 k1 k2 s1 s2 ht1 ht2 hk hs1 hs2
    have hc1 := score_char a b c d t1 h0a hab hbc hcd k1 s1 ht1 hs1
    have hc2 := score_char a b c d t2 h0a hab hbc hcd k2 s2 ht2 hs2
    rcases hc1 with ⟨hk1, hlt, hden, hs⟩ | ⟨hk1, _, _, hs⟩ | ⟨hk1, _, _, hs⟩ | ⟨hk1, _, _, hs⟩ <;>
      rcases hc2 with ⟨hk2, _, _, hs'⟩ | ⟨hk2, _, _, hs'⟩ | ⟨hk2, _, _, hs'⟩ | ⟨hk2, _, _, hs'⟩ <;>
      subst hs <;> subst hs' <;>
      first
      | omega
      | (have hb := tier0_bound t1 a h0a hlt hden; omega)

/-- C9 counterexample: within one tier the score is not monotone
increasing in the temperature.  In the module trip array both -59 and -58
degrees sit in tier 0 (below the 60-degree norm trip), yet the score at the
lower temperature is 60 while the score at the higher temperature is 30. -/
theorem c9_counterexample :
    zoneTier TZ_MODULE_TRIPS (-59) = some 0 ∧
    zoneTier TZ_MODULE_TRIPS (-58) = some 0 ∧
    zoneScore TZ_MODULE_TRIPS (-59) = .ok 60 ∧
    zoneScore TZ_MODULE_TRIPS (-58) = .ok 30 ∧
    ((-59 : Int) < -58) ∧ ¬ ((60 : Int) ≤ 30) := by
  refine ⟨rfl, rfl, by decide, by decide, by decide, by decide⟩

/-- C9 (amended): for every zone family's fixed trip array, the score at
the first trip point above the temperature follows the source formula with
shift 1, 256, 256², 256³ (that part of the claim is the definition of
`zoneScore`); but within one tier the score is not monotone increasing in
the temperature — for non-negative temperatures it is constant, equal to
the tier's shift `256 ^ k` — while tier dominance does hold: whenever two
temperatures land in tiers `k1 < k2` and both scores are computed without a
zero denominator, the higher-tier score is strictly larger. -/
theorem c9_amended (trips : List Int)
    (htrips : trips = TZ_ASIC_TRIPS ∨ trips = TZ_MODULE_TRIPS ∨
      trips = TZ_GEARBOX_TRIPS) :
    (∀ t k, 0 ≤ t → zoneTier trips t = some k →
      zoneScore trips t = .ok (256 ^ k)) ∧
    (∀ t1 t2 k1 k2 s1 s2, zoneTier trips t1 = some k1 →
      zoneTier trips t2 = some k2 → k1 < k2 →
      zoneScore trips t1 = .ok s1 → zoneScore trips t2 = .ok s2 →
      s1 < s2) := by
  have hA := score4_spec 75 85 105 110 (by norm_num) (by norm_num) (by norm_num)
    (by norm_num) (by norm_num)
  have hM := score4_spec 60 70 80 90 (by norm_num) (by norm_num) (by norm_num)
    (by norm_num) (by norm_num)
  rcases htrips with h | h | h <;> subst h
  · exact hA
  · exact hM
  · exact hA

/-- Witness for `c9_amended`: a module zone at 65 degrees is in tier 1 and
scores exactly 256. -/
theorem c9_amended_witness :
    zoneScore TZ_MODULE_TRIPS 65 = .ok (256 ^ 1) :=
  (c9_amended TZ_MODULE_TRIPS (Or.inr (Or.inl rfl))).1 65 1 (by decide) (by decide)

end HwMgmt
